import Mathlib

/-!
cocos3d `C3DVertexDeclaration`: vertex-attribute binding state.

A shallow embedding of `src/cocos3d/C3DVertexDeclaration.cpp`.

Conventions of the embedding.

* The three file-level statics (`__maxVertexAttribs`, `__vertexAttributeBindingCache`,
  `__curvaEnableMask`) are the fields of `Globals`, passed explicitly.
* Every call that leaves the object (OpenGL entry points, `retain`/`release` on the
  mesh) is appended to a log of `Call`s, in program order.  What the driver answers
  (`glGetIntegerv`, `glGenVertexArrays`) is an input, `DriverReply`.
* Machine integers are `Nat`/`Int` with the reduction modulo `2^32` written out where
  the source converts (`toGLuint`, `toGLint`).
* `assert` and `GL_ASSERT` are compiled out (release build): the code after an
  assertion runs whatever the asserted condition was.
* A write through a null slot array or past its end, and a shift `1 << i` with
  `i >= 32`, are undefined behaviour; the functions that can reach one return `Option`,
  and `none` stands for it.
* Pointers are compared by address: objects carry the address they live at
  (`addr`, `id`).
-/

namespace cocos3d

/-! ## Machine integers and constants -/

/-- Conversion of an integer to a 32-bit unsigned (`GLuint`, `unsigned int`). -/
def toGLuint (x : Int) : Nat := (x % 4294967296).toNat

/-- Conversion of an integer to a 32-bit signed (`GLint`, `GLsizei`, `int`):
the two's complement reading of the low 32 bits. -/
def toGLint (x : Int) : Int :=
  if toGLuint x < 2147483648 then (toGLuint x : Int) else (toGLuint x : Int) - 4294967296

def GL_FLOAT : Nat := 0x1406

def GL_ARRAY_BUFFER : Nat := 0x8892

def GL_ELEMENT_ARRAY_BUFFER : Nat := 0x8893

def GL_MAX_VERTEX_ATTRIBS : Nat := 0x8869

def VERTEX_ATTRIBUTE_POSITION_NAME : String := "a_position"

def VERTEX_ATTRIBUTE_NORMAL_NAME : String := "a_normal"

def VERTEX_ATTRIBUTE_COLOR_NAME : String := "a_color"

def VERTEX_ATTRIBUTE_TANGENT_NAME : String := "a_tangent"

def VERTEX_ATTRIBUTE_BINORMAL_NAME : String := "a_binormal"

def VERTEX_ATTRIBUTE_BLENDWEIGHTS_NAME : String := "a_blendWeights"

def VERTEX_ATTRIBUTE_BLENDINDICES_NAME : String := "a_blendIndices"

def VERTEX_ATTRIBUTE_TEXCOORD_PREFIX_NAME : String := "a_texCoord"

/-! ## Collaborators (declared in headers outside this file) -/

/-- The usage tags the `switch` of `init` distinguishes; `OTHER` is any value that
falls to its `default:` branch. -/
inductive Vertex_Usage
  | POSITION
  | NORMAL
  | COLOR
  | TANGENT
  | BINORMAL
  | BLENDWEIGHTS
  | BLENDINDICES
  | TEXCOORD0
  | TEXCOORD1
  | TEXCOORD2
  | TEXCOORD3
  | TEXCOORD4
  | TEXCOORD5
  | TEXCOORD6
  | TEXCOORD7
  | OTHER
  deriving DecidableEq, Repr

/-- A vertex element: usage tag and number of float components. -/
structure C3DVertexElement where
  usage : Vertex_Usage
  size : Nat
  deriving DecidableEq, Repr

/-- A vertex format: its elements in layout order (`getElementCount`, `getElement`). -/
structure C3DVertexFormat where
  elements : List C3DVertexElement
  deriving DecidableEq, Repr

/-- Modelled from the spec: `C3DVertexFormat::getVertexSize` is defined outside this
file; the spec calls it the format's total per-vertex byte size, four bytes for each
float component of each element. -/
def C3DVertexFormat.getVertexSize (f : C3DVertexFormat) : Nat :=
  (f.elements.map fun e => e.size * 4).sum

/-- An effect: its address and `getVertexAttribute`, which answers `-1` for a name
the shader does not expose. -/
structure C3DEffect where
  id : Nat
  getVertexAttribute : String → Int

/-- A mesh: its address, its vertex format and the name of its vertex buffer. -/
structure C3DMesh where
  id : Nat
  vertexFormat : C3DVertexFormat
  vertexBuffer : Nat

/-- The platform: `C3DDeviceAdapter::getInstance()->isSupportVAO()` and whether the
entry point `glGenVertexArrays` is loaded (non-null). -/
structure Device where
  isSupportVAO : Bool
  glGenVertexArrays : Bool

/-- What the driver answers during one `init`: the value `glGetIntegerv` stores in
`temp` and the name `glGenVertexArrays` stores in `_handle`. -/
structure DriverReply where
  maxVertexAttribs : Int
  vertexArray : Nat

/-- The calls that leave the object, with their arguments. -/
inductive Call
  | glGetIntegerv (pname : Nat)
  | glBindBuffer (target buffer : Nat)
  | glGenVertexArrays (n : Nat)
  | glBindVertexArray (array : Nat)
  | glDeleteVertexArrays (array : Nat)
  | glEnableVertexAttribArray (index : Nat)
  | glDisableVertexAttribArray (index : Nat)
  | glVertexAttribPointer (index : Nat) (size : Int) (type : Nat) (normalized : Bool)
      (stride : Int) (pointer : Nat)
  | meshRetain (mesh : Nat)
  | meshRelease (mesh : Nat)
  deriving DecidableEq, Repr

/-! ## The data of the class -/

/-- One slot of the software representation of a vertex array object. -/
structure C3DVertexAttribute where
  enabled : Bool
  size : Int
  type : Nat
  normalized : Bool
  stride : Int
  pointer : Nat
  deriving DecidableEq, Repr

/-- The binding object.  `addr` is the address of the object (`this`), `refCount`
the reference count of its base class (one after `new`). -/
structure C3DVertexDeclaration where
  addr : Nat
  refCount : Nat
  _handle : Nat
  _attributes : Option (List C3DVertexAttribute)
  _mesh : Option C3DMesh
  _effect : Option C3DEffect
  _vaEnableMask : Int

/-- The file-level statics.  `initCalls` is a ghost counter of the calls of `init`. -/
structure Globals where
  __maxVertexAttribs : Nat
  __vertexAttributeBindingCache : List C3DVertexDeclaration
  __curvaEnableMask : Int
  initCalls : Nat

/-- The object `new C3DVertexDeclaration()` yields at address `addr` (constructor,
lines 25-28). -/
def C3DVertexDeclaration.new (addr : Nat) : C3DVertexDeclaration :=
  { addr := addr, refCount := 1, _handle := 0, _attributes := none, _mesh := none,
    _effect := none, _vaEnableMask := 0 }

/-- The values `init` gives every slot of a fresh slot array ("Set GL defaults"). -/
def defaultAttribute : C3DVertexAttribute :=
  { enabled := false, size := 4, stride := 0, type := GL_FLOAT, normalized := false,
    pointer := 0 }

/-- The arguments of one call of `setVertexAttribPointer`. -/
structure AttribPointerArgs where
  indx : Nat
  size : Int
  type : Nat
  normalize : Bool
  stride : Int
  pointer : Nat
  deriving DecidableEq, Repr

/-! ## `init` -/

/-- The `switch` of `init` (lines 201-248): the attribute location found for a usage,
together with the names `getVertexAttribute` was asked for, in order. -/
def initSwitch (effect : C3DEffect) : Vertex_Usage → Int × List String
  | .POSITION =>
    (effect.getVertexAttribute VERTEX_ATTRIBUTE_POSITION_NAME, [VERTEX_ATTRIBUTE_POSITION_NAME])
  | .NORMAL =>
    (effect.getVertexAttribute VERTEX_ATTRIBUTE_NORMAL_NAME, [VERTEX_ATTRIBUTE_NORMAL_NAME])
  | .COLOR =>
    (effect.getVertexAttribute VERTEX_ATTRIBUTE_COLOR_NAME, [VERTEX_ATTRIBUTE_COLOR_NAME])
  | .TANGENT =>
    (effect.getVertexAttribute VERTEX_ATTRIBUTE_TANGENT_NAME, [VERTEX_ATTRIBUTE_TANGENT_NAME])
  | .BINORMAL =>
    (effect.getVertexAttribute VERTEX_ATTRIBUTE_BINORMAL_NAME, [VERTEX_ATTRIBUTE_BINORMAL_NAME])
  | .BLENDWEIGHTS =>
    (effect.getVertexAttribute VERTEX_ATTRIBUTE_BLENDWEIGHTS_NAME,
      [VERTEX_ATTRIBUTE_BLENDWEIGHTS_NAME])
  | .BLENDINDICES =>
    (effect.getVertexAttribute VERTEX_ATTRIBUTE_BLENDINDICES_NAME,
      [VERTEX_ATTRIBUTE_BLENDINDICES_NAME])
  | .TEXCOORD0 =>
    let attrib := effect.getVertexAttribute VERTEX_ATTRIBUTE_TEXCOORD_PREFIX_NAME
    if attrib = -1 then
      let name := VERTEX_ATTRIBUTE_TEXCOORD_PREFIX_NAME ++ "0"
      (effect.getVertexAttribute name, [VERTEX_ATTRIBUTE_TEXCOORD_PREFIX_NAME, name])
    else
      (attrib, [VERTEX_ATTRIBUTE_TEXCOORD_PREFIX_NAME])
  | .TEXCOORD1 =>
    let name := VERTEX_ATTRIBUTE_TEXCOORD_PREFIX_NAME.push (Char.ofNat (1 + '0'.toNat))
    (effect.getVertexAttribute name, [name])
  | .TEXCOORD2 =>
    let name := VERTEX_ATTRIBUTE_TEXCOORD_PREFIX_NAME.push (Char.ofNat (2 + '0'.toNat))
    (effect.getVertexAttribute name, [name])
  | .TEXCOORD3 =>
    let name := VERTEX_ATTRIBUTE_TEXCOORD_PREFIX_NAME.push (Char.ofNat (3 + '0'.toNat))
    (effect.getVertexAttribute name, [name])
  | .TEXCOORD4 =>
    let name := VERTEX_ATTRIBUTE_TEXCOORD_PREFIX_NAME.push (Char.ofNat (4 + '0'.toNat))
    (effect.getVertexAttribute name, [name])
  | .TEXCOORD5 =>
    let name := VERTEX_ATTRIBUTE_TEXCOORD_PREFIX_NAME.push (Char.ofNat (5 + '0'.toNat))
    (effect.getVertexAttribute name, [name])
  | .TEXCOORD6 =>
    let name := VERTEX_ATTRIBUTE_TEXCOORD_PREFIX_NAME.push (Char.ofNat (6 + '0'.toNat))
    (effect.getVertexAttribute name, [name])
  | .TEXCOORD7 =>
    let name := VERTEX_ATTRIBUTE_TEXCOORD_PREFIX_NAME.push (Char.ofNat (7 + '0'.toNat))
    (effect.getVertexAttribute name, [name])
  | .OTHER => (-1, [])

/-- `C3DVertexDeclaration::setVertexAttribPointer` (lines 276-298).  In hardware mode
two driver calls; in software mode the slot `indx` of the slot array is overwritten.
The source asserts `indx < __maxVertexAttribs`; a write outside the array is `none`. -/
def setVertexAttribPointer (self : C3DVertexDeclaration) (a : AttribPointerArgs) :
    Option (C3DVertexDeclaration × List Call) :=
  if self._handle ≠ 0 then
    some (self, [Call.glEnableVertexAttribArray a.indx,
      Call.glVertexAttribPointer a.indx a.size a.type a.normalize a.stride a.pointer])
  else
    match self._attributes with
    | none => none
    | some attrs =>
      if a.indx < attrs.length then
        some ({ self with _attributes := some (attrs.set a.indx
          { enabled := true, size := a.size, type := a.type, normalized := a.normalize,
            stride := a.stride, pointer := a.pointer }) }, [])
      else none

/-- The element loop of `init` (lines 191-262), from the element list still to visit,
the running `offset` (an `unsigned int`) and the object.  Besides the object and the
calls it yields, per element, the arguments `setVertexAttribPointer` was called with
(`none` for an element that was skipped). -/
def initElements (effect : C3DEffect) (vertexPointer : Nat) (stride : Int) :
    List C3DVertexElement → Nat → C3DVertexDeclaration →
    Option (C3DVertexDeclaration × List Call × List (Option AttribPointerArgs))
  | [], _, self => some (self, [], [])
  | elem :: rest, offset, self =>
    let attrib := (initSwitch effect elem.usage).1
    let offset1 := (offset + elem.size * 4) % 4294967296
    if attrib = -1 then
      (initElements effect vertexPointer stride rest offset1 self).map
        fun r => (r.1, r.2.1, none :: r.2.2)
    else
      let pointer := if vertexPointer ≠ 0 then vertexPointer + offset else offset
      let args : AttribPointerArgs :=
        { indx := toGLuint attrib, size := toGLint elem.size, type := GL_FLOAT,
          normalize := false, stride := stride, pointer := pointer }
      match setVertexAttribPointer self args with
      | none => none
      | some (self1, calls1) =>
        (initElements effect vertexPointer stride rest offset1 self1).map
          fun r => (r.1, calls1 ++ r.2.1, some args :: r.2.2)

/-- What one call of `init` leaves behind: its return value, the object, the statics,
the calls it made and, per vertex element, the registration it made. -/
structure InitResult where
  ok : Bool
  self : C3DVertexDeclaration
  globals : Globals
  calls : List Call
  registered : List (Option AttribPointerArgs)

/-- The one-time initialization of `init` (lines 113-125): whether `init` goes on,
the statics, the calls.  `__maxVertexAttribs` is a `GLuint`: the driver's `GLint`
answer is converted on assignment, and the test `<= 0` is made on the converted value. -/
def initOneTime (drv : DriverReply) (g : Globals) : Bool × Globals × List Call :=
  if g.__maxVertexAttribs = 0 then
    let g1 : Globals := { g with __maxVertexAttribs := toGLuint drv.maxVertexAttribs }
    if g1.__maxVertexAttribs ≤ 0 then
      (false, g1, [Call.glGetIntegerv GL_MAX_VERTEX_ATTRIBS])
    else (true, g1, [Call.glGetIntegerv GL_MAX_VERTEX_ATTRIBS])
  else (true, g, [])

/-- The slot array `init` allocates in software mode (lines 152-163, repeated at
169-180). -/
def softwareAttributes (maxVertexAttribs : Nat) : List C3DVertexAttribute :=
  List.replicate maxVertexAttribs defaultAttribute

/-- The mode selection of `init` (lines 127-181): whether `init` goes on, the object,
the calls. -/
def initConfigure (dev : Device) (drv : DriverReply) (maxVertexAttribs : Nat)
    (self : C3DVertexDeclaration) (mesh : Option C3DMesh) :
    Bool × C3DVertexDeclaration × List Call :=
  if dev.isSupportVAO then
    match (if dev.glGenVertexArrays then mesh else none) with
    | some m =>
      -- Use hardware VAOs.
      let self1 : C3DVertexDeclaration := { self with _handle := drv.vertexArray }
      if self1._handle = 0 then
        (false, self1,
          [Call.glBindBuffer GL_ARRAY_BUFFER 0, Call.glBindBuffer GL_ELEMENT_ARRAY_BUFFER 0,
            Call.glGenVertexArrays 1])
      else
        (true, self1,
          [Call.glBindBuffer GL_ARRAY_BUFFER 0, Call.glBindBuffer GL_ELEMENT_ARRAY_BUFFER 0,
            Call.glGenVertexArrays 1, Call.glBindVertexArray self1._handle,
            Call.glBindBuffer GL_ARRAY_BUFFER m.vertexBuffer])
    | none =>
      -- Construct a software representation of a VAO.
      (true, { self with _attributes := some (softwareAttributes maxVertexAttribs) }, [])
  else
    -- Construct a software representation of a VAO.
    (true, { self with _attributes := some (softwareAttributes maxVertexAttribs) }, [])

/-- The object `init` hands to the element loop (lines 183-189): the mesh, when there
is one, and the effect are stored. -/
def initStore (self : C3DVertexDeclaration) (mesh : Option C3DMesh) (effect : C3DEffect) :
    C3DVertexDeclaration :=
  match mesh with
  | some m => { self with _mesh := some m, _effect := some effect }
  | none => { self with _effect := some effect }

/-- `C3DVertexDeclaration::init` (lines 111-274). -/
def init (dev : Device) (drv : DriverReply) (g : Globals) (self : C3DVertexDeclaration)
    (mesh : Option C3DMesh) (vertexFormat : C3DVertexFormat) (vertexPointer : Nat)
    (effect : C3DEffect) : Option InitResult :=
  match initOneTime drv { g with initCalls := g.initCalls + 1 } with
  | (false, g1, calls1) =>
    some { ok := false, self := self, globals := g1, calls := calls1, registered := [] }
  | (true, g1, calls1) =>
    match initConfigure dev drv g1.__maxVertexAttribs self mesh with
    | (false, self1, calls2) =>
      some { ok := false, self := self1, globals := g1, calls := calls1 ++ calls2,
             registered := [] }
    | (true, self1, calls2) =>
      match initElements effect vertexPointer (toGLint vertexFormat.getVertexSize)
          vertexFormat.elements 0 (initStore self1 mesh effect) with
      | none => none
      | some (self4, calls4, registered) =>
        some { ok := true, self := self4, globals := g1,
               calls := calls1 ++ calls2 ++
                 (match mesh with
                  | some m => [Call.meshRetain m.id]
                  | none => []) ++
                 calls4 ++
                 (if dev.isSupportVAO ∧ self4._handle ≠ 0 then
                    [Call.glBindBuffer GL_ARRAY_BUFFER 0, Call.glBindVertexArray 0]
                  else []),
               registered := registered }

/-! ## Construction, destruction, `reload` -/

/-- The destructor (lines 30-51): erases the first cache entry whose address is
`this`, releases the mesh, and deletes the hardware array when there is one.  The slot
array is freed with the object. -/
def destructor (dev : Device) (g : Globals) (self : C3DVertexDeclaration) :
    Globals × List Call :=
  ({ g with __vertexAttributeBindingCache :=
      g.__vertexAttributeBindingCache.eraseP fun d => d.addr = self.addr },
    (match self._mesh with
      | some m => [Call.meshRelease m.id]
      | none => []) ++
    (if dev.isSupportVAO ∧ self._handle ≠ 0 then [Call.glDeleteVertexArrays self._handle]
      else []))

/-- Modelled from the spec: `retain` of the reference-counted base class, defined
outside this file: one more owner. -/
def retain (b : C3DVertexDeclaration) : C3DVertexDeclaration :=
  { b with refCount := b.refCount + 1 }

/-- Modelled from the spec: `release` of the reference-counted base class, defined
outside this file: one owner less, and the object is destroyed when that was the last
one. -/
def release (dev : Device) (g : Globals) (b : C3DVertexDeclaration) : Globals × List Call :=
  if b.refCount ≤ 1 then destructor dev g b
  else
    ({ g with __vertexAttributeBindingCache :=
        g.__vertexAttributeBindingCache.map fun d =>
          if d.addr = b.addr then { d with refCount := d.refCount - 1 } else d }, [])

/-- The test `b->_mesh == mesh && b->_effect == effect` of `create`: both pointers
are compared by address. -/
def sameMeshEffect (b : C3DVertexDeclaration) (mesh : C3DMesh) (effect : C3DEffect) : Bool :=
  decide (b._mesh.map (fun m => m.id) = some mesh.id) &&
    decide (b._effect.map (fun e => e.id) = some effect.id)

/-- The search loop of `create` (lines 57-66) over the cache: on a match the binding,
retained, and the cache with that entry retained. -/
def createScan (mesh : C3DMesh) (effect : C3DEffect) :
    List C3DVertexDeclaration → Option (C3DVertexDeclaration × List C3DVertexDeclaration)
  | [] => none
  | b :: rest =>
    if sameMeshEffect b mesh effect then some (retain b, retain b :: rest)
    else (createScan mesh effect rest).map fun r => (r.1, b :: r.2)

/-- `C3DVertexDeclaration::create(C3DMesh*, C3DEffect*)` (lines 53-81).  `addr` is the
address `new` hands out when the object has to be built.  The result is the returned
pointer (`none` for `NULL`), the statics and the calls made. -/
def create (dev : Device) (drv : DriverReply) (g : Globals) (addr : Nat) (mesh : C3DMesh)
    (effect : C3DEffect) : Option (Option C3DVertexDeclaration × Globals × List Call) :=
  match createScan mesh effect g.__vertexAttributeBindingCache with
  | some (b, cache) => some (some b, { g with __vertexAttributeBindingCache := cache }, [])
  | none =>
    match init dev drv g (C3DVertexDeclaration.new addr) (some mesh) mesh.vertexFormat 0
        effect with
    | none => none
    | some r =>
      if r.ok then
        some (some r.self,
          { r.globals with __vertexAttributeBindingCache :=
              r.globals.__vertexAttributeBindingCache ++ [r.self] },
          r.calls)
      else
        some (none, (release dev r.globals r.self).1,
          r.calls ++ (release dev r.globals r.self).2)

/-- `C3DVertexDeclaration::reload` (lines 97-109).  The return value of `init` is not
looked at.  An object with a mesh but no effect makes `init` dereference a null effect:
`none`. -/
def reload (dev : Device) (drv : DriverReply) (g : Globals) (self : C3DVertexDeclaration) :
    Option (C3DVertexDeclaration × Globals × List Call) :=
  match self._mesh with
  | none => some (self, g, [])
  | some mesh =>
    match self._effect with
    | none => none
    | some effect =>
      (init dev drv g { self with _attributes := none } (some mesh) mesh.vertexFormat 0
        effect).map fun r => (r.self, r.globals, r.calls ++ [Call.meshRelease mesh.id])

/-! ## `bind` and `unbind` -/

/-- The software branch of `bind` (lines 311-329, repeated at 334-352): the buffer is
bound, then every enabled slot below `__maxVertexAttribs` is handed to the driver and
enabled.  Reading a slot the array does not have is `none`. -/
def bindSoftware (maxVertexAttribs : Nat) (self : C3DVertexDeclaration) : Option (List Call) :=
  if maxVertexAttribs ≤ (self._attributes.getD []).length then
    some (Call.glBindBuffer GL_ARRAY_BUFFER
        (match self._mesh with
          | some m => m.vertexBuffer
          | none => 0) ::
      (List.range maxVertexAttribs).flatMap fun i =>
        match (self._attributes.getD [])[i]? with
        | some attr =>
          if attr.enabled then
            [Call.glVertexAttribPointer i attr.size attr.type attr.normalized attr.stride
                attr.pointer,
              Call.glEnableVertexAttribArray i]
          else []
        | none => [])
  else none

/-- `C3DVertexDeclaration::bind` (lines 300-354). -/
def bind (dev : Device) (maxVertexAttribs : Nat) (self : C3DVertexDeclaration) :
    Option (List Call) :=
  if dev.isSupportVAO = true then
    if self._handle ≠ 0 then some [Call.glBindVertexArray self._handle]
    else bindSoftware maxVertexAttribs self
  else bindSoftware maxVertexAttribs self

/-- The software branch of `unbind` (lines 367-379, repeated at 384-396): every
enabled slot below `__maxVertexAttribs` is disabled at the driver. -/
def unbindSoftware (maxVertexAttribs : Nat) (self : C3DVertexDeclaration) :
    Option (List Call) :=
  if maxVertexAttribs ≤ (self._attributes.getD []).length then
    some ((match self._mesh with
        | some _ => [Call.glBindBuffer GL_ARRAY_BUFFER 0]
        | none => []) ++
      (List.range maxVertexAttribs).flatMap fun i =>
        match (self._attributes.getD [])[i]? with
        | some attr => if attr.enabled then [Call.glDisableVertexAttribArray i] else []
        | none => [])
  else none

/-- `C3DVertexDeclaration::unbind` (lines 356-398). -/
def unbind (dev : Device) (maxVertexAttribs : Nat) (self : C3DVertexDeclaration) :
    Option (List Call) :=
  if dev.isSupportVAO then
    if self._handle ≠ 0 then some [Call.glBindVertexArray 0]
    else unbindSoftware maxVertexAttribs self
  else unbindSoftware maxVertexAttribs self

/-! ## The global enable mask -/

/-- The C expression `1 << i` on `int`.  From `i = 32` on the shift is undefined in
C++: `none`. -/
def shiftLeftOne (i : Nat) : Option Int := if i < 32 then some (toGLint (2 ^ i)) else none

/-- The C expression `a & b` on `int`. -/
def bitAnd (a b : Int) : Int := toGLint (toGLuint a &&& toGLuint b)

/-- The C expression `a ^ b` on `int`. -/
def bitXor (a b : Int) : Int := toGLint (toGLuint a ^^^ toGLuint b)

/-- `C3DVertexDeclaration::getCurVertAttEnables` (lines 400-403). -/
def getCurVertAttEnables (g : Globals) : Int := g.__curvaEnableMask

/-- A `for` loop over slot indices whose body can be undefined: the calls of the
iterations in order, `none` as soon as one iteration is undefined. -/
def forSlots (body : Nat → Option (List Call)) : List Nat → Option (List Call)
  | [] => some []
  | i :: rest =>
    match body i with
    | none => none
    | some calls => (forSlots body rest).map fun more => calls ++ more

/-- `C3DVertexDeclaration::setCurVertAttEnables` (lines 405-441): the statics after
the call and the driver calls it made.  Both loops evaluate `1 << i` for every
`i < __maxVertexAttribs`; the calls are `none` when one of these shifts is undefined. -/
def setCurVertAttEnables (g : Globals) (enableMask : Int) (force : Bool) :
    Globals × Option (List Call) :=
  ({ g with __curvaEnableMask := enableMask },
    if !force then
      forSlots (fun i =>
        (shiftLeftOne i).map fun bit =>
          if bitAnd (bitXor g.__curvaEnableMask enableMask) bit ≠ 0 then
            if bitAnd g.__curvaEnableMask bit ≠ 0 then
              [Call.glDisableVertexAttribArray i]
            else [Call.glEnableVertexAttribArray i]
          else []) (List.range g.__maxVertexAttribs)
    else
      forSlots (fun i =>
        (shiftLeftOne i).map fun bit =>
          [if bitAnd enableMask bit ≠ 0 then Call.glEnableVertexAttribArray i
           else Call.glDisableVertexAttribArray i]) (List.range g.__maxVertexAttribs))

/-! ## The driver's side, and the vocabulary of the claims -/

/-- The driver-visible enabled flag of every attribute slot after one call:
`glEnableVertexAttribArray` sets the flag of its slot, `glDisableVertexAttribArray`
clears it, no other call touches the flags. -/
def driverStep (enabled : Nat → Bool) : Call → Nat → Bool
  | Call.glEnableVertexAttribArray i => fun j => if j = i then true else enabled j
  | Call.glDisableVertexAttribArray i => fun j => if j = i then false else enabled j
  | _ => enabled

/-- The driver-visible enabled flags after a sequence of calls. -/
def driverEnabled (enabled : Nat → Bool) (calls : List Call) : Nat → Bool :=
  calls.foldl driverStep enabled

/-- Whether a call is an enable or a disable of an attribute slot. -/
def Call.isToggle : Call → Bool
  | Call.glEnableVertexAttribArray _ => true
  | Call.glDisableVertexAttribArray _ => true
  | _ => false

/-- The number of enable/disable calls in a log. -/
def toggleCount (calls : List Call) : Nat := (calls.filter Call.isToggle).length

/-- The number of one bits among the 32 bits of an `int`. -/
def popcount (x : Int) : Nat :=
  ((List.range 32).filter fun i => (toGLuint x).testBit i).length

/-- The number of one bits of an `int` in the positions below `n`. -/
def popcountBelow (n : Nat) (x : Int) : Nat :=
  ((List.range n).filter fun i => (toGLuint x).testBit i).length

/-- Whether slot `i` is an enabled slot of the binding's slot array. -/
def slotEnabled (self : C3DVertexDeclaration) (i : Nat) : Bool :=
  match (self._attributes.getD [])[i]? with
  | some attr => attr.enabled
  | none => false

/-- Whether the effect resolves the element to slot `i`: the location it finds is not
`-1` and, passed as the `GLuint` slot index, is `i`. -/
def resolvesTo (effect : C3DEffect) (e : C3DVertexElement) (i : Nat) : Prop :=
  (initSwitch effect e.usage).1 ≠ -1 ∧ toGLuint (initSwitch effect e.usage).1 = i

instance (effect : C3DEffect) (e : C3DVertexElement) (i : Nat) :
    Decidable (resolvesTo effect e i) := by
  unfold resolvesTo
  infer_instance

/-- The statics at program start (lines 20-23): attribute count not cached, empty
cache, nothing enabled. -/
def globalsFresh : Globals :=
  { __maxVertexAttribs := 0, __vertexAttributeBindingCache := [], __curvaEnableMask := 0,
    initCalls := 0 }

/-- An effect that exposes both `a_texCoord` (location 3) and `a_texCoord0`
(location 5). -/
def effectBothTexCoord : C3DEffect :=
  { id := 900,
    getVertexAttribute := fun name =>
      if name = "a_texCoord" then 3 else if name = "a_texCoord0" then 5 else -1 }

/-- Statics with eight attribute slots, nothing enabled, empty cache. -/
def globalsEight : Globals :=
  { __maxVertexAttribs := 8, __vertexAttributeBindingCache := [], __curvaEnableMask := 0,
    initCalls := 0 }

/-- A software-mode binding whose slot array of two slots has slot 0 enabled. -/
def declSlotZero : C3DVertexDeclaration :=
  { addr := 100, refCount := 1, _handle := 0,
    _attributes := some
      [{ enabled := true, size := 3, type := GL_FLOAT, normalized := false, stride := 12,
         pointer := 0 }, defaultAttribute],
    _mesh := none, _effect := none, _vaEnableMask := 0 }

/-- A platform without hardware vertex arrays. -/
def deviceNoVAO : Device := { isSupportVAO := false, glGenVertexArrays := false }

/-- A platform with hardware vertex arrays. -/
def deviceVAO : Device := { isSupportVAO := true, glGenVertexArrays := true }

/-- A driver reporting sixteen attribute slots and handing out vertex array 7. -/
def driverSixteen : DriverReply := { maxVertexAttribs := 16, vertexArray := 7 }

/-- The format `[POSITION(3), NORMAL(3), TEXCOORD0(2)]`. -/
def formatPNT : C3DVertexFormat :=
  { elements := [⟨Vertex_Usage.POSITION, 3⟩, ⟨Vertex_Usage.NORMAL, 3⟩,
      ⟨Vertex_Usage.TEXCOORD0, 2⟩] }

/-- An effect that exposes only `a_position` (location 0) and `a_texCoord0`
(location 1). -/
def effectPT : C3DEffect :=
  { id := 901,
    getVertexAttribute := fun name =>
      if name = "a_position" then 0 else if name = "a_texCoord0" then 1 else -1 }

/-- A mesh with the format `[POSITION(3), NORMAL(3), TEXCOORD0(2)]`. -/
def meshPNT : C3DMesh := { id := 500, vertexFormat := formatPNT, vertexBuffer := 9 }

/-- A driver that answers `-1` for `GL_MAX_VERTEX_ATTRIBS` and hands out vertex
array 7. -/
def driverNegative : DriverReply := { maxVertexAttribs := -1, vertexArray := 7 }

/-- A driver that answers the most negative `GLint` for `GL_MAX_VERTEX_ATTRIBS` and
hands out vertex array 3. -/
def driverMostNegative : DriverReply := { maxVertexAttribs := -2147483648, vertexArray := 3 }

/-- A driver whose `glGenVertexArrays` stores `0`. -/
def driverNoArray : DriverReply := { maxVertexAttribs := 16, vertexArray := 0 }

/-! # Theorems -/

/-! ## Machine integers -/

theorem toGLuint_lt (x : Int) : toGLuint x < 4294967296 := by
  unfold toGLuint
  have h1 : 0 ≤ x % 4294967296 := Int.emod_nonneg _ (by norm_num)
  have h2 : x % 4294967296 < 4294967296 := Int.emod_lt_of_pos _ (by norm_num)
  omega

theorem toGLuint_toGLint (x : Int) : toGLuint (toGLint x) = toGLuint x := by
  have h := toGLuint_lt x
  unfold toGLint
  generalize toGLuint x = m at h ⊢
  unfold toGLuint
  split_ifs <;> omega

theorem toGLint_eq_zero (x : Int) : toGLint x = 0 ↔ toGLuint x = 0 := by
  have h := toGLuint_lt x
  unfold toGLint
  generalize toGLuint x = m at h ⊢
  split_ifs <;> omega

theorem toGLuint_natCast (n : Nat) : toGLuint (n : Int) = n % 4294967296 := by
  unfold toGLuint
  omega

theorem bitAnd_shiftLeftOne_ne_zero (m : Int) (i : Nat) :
    bitAnd m (toGLint (2 ^ i)) ≠ 0 ↔ (toGLuint m).testBit i = true := by
  unfold bitAnd
  rw [Ne, toGLint_eq_zero, toGLuint_toGLint, toGLuint_natCast]
  have hlt : toGLuint m &&& toGLuint (2 ^ i) < 4294967296 :=
    lt_of_le_of_lt Nat.and_le_left (toGLuint_lt m)
  rw [Nat.mod_eq_of_lt hlt]
  have hpow : toGLuint ((2 : Int) ^ i) = 2 ^ i % 4294967296 := by
    have : ((2 : Int) ^ i) = ((2 ^ i : Nat) : Int) := by push_cast; rfl
    rw [this, toGLuint_natCast]
  rw [hpow]
  by_cases hi : i < 32
  · have h2 : 2 ^ i < 4294967296 := by
      calc 2 ^ i < 2 ^ 32 := Nat.pow_lt_pow_right (by norm_num) hi
        _ = 4294967296 := by norm_num
    rw [Nat.mod_eq_of_lt h2, Nat.and_two_pow]
    cases h : (toGLuint m).testBit i <;> simp
  · have h2 : 2 ^ i % 4294967296 = 0 := by
      have : (4294967296 : Nat) = 2 ^ 32 := by norm_num
      rw [this]
      exact Nat.mod_eq_zero_of_dvd (Nat.pow_dvd_pow 2 (by omega))
    rw [h2]
    have h3 : (toGLuint m).testBit i = false := by
      apply Nat.testBit_lt_two_pow
      calc toGLuint m < 4294967296 := toGLuint_lt m
        _ = 2 ^ 32 := by norm_num
        _ ≤ 2 ^ i := Nat.pow_le_pow_right (by norm_num) (by omega)
    simp [h3]

theorem toGLuint_bitXor (a b : Int) : toGLuint (bitXor a b) = toGLuint a ^^^ toGLuint b := by
  unfold bitXor
  rw [toGLuint_toGLint, toGLuint_natCast]
  apply Nat.mod_eq_of_lt
  have : (4294967296 : Nat) = 2 ^ 32 := by norm_num
  rw [this]
  apply Nat.xor_lt_two_pow
  · rw [← this]; exact toGLuint_lt a
  · rw [← this]; exact toGLuint_lt b

/-! ## `setCurVertAttEnables` -/

theorem toggleCount_append (xs ys : List Call) :
    toggleCount (xs ++ ys) = toggleCount xs + toggleCount ys := by
  simp [toggleCount]

/-- A loop that issues one toggle for the indices satisfying `p` and nothing for the
others issues as many toggles as there are such indices. -/
theorem toggleCount_flatMap (p : Nat → Bool) (f : Nat → List Call)
    (hp : ∀ i, p i = true → toggleCount (f i) = 1)
    (hn : ∀ i, p i = false → f i = []) (l : List Nat) :
    toggleCount (l.flatMap f) = (l.filter p).length := by
  induction l with
  | nil => simp [toggleCount]
  | cons i l ih =>
    rw [List.flatMap_cons, toggleCount_append, ih]
    cases h : p i
    · rw [hn i h, List.filter_cons_of_neg (by simp [h])]
      simp [toggleCount]
    · rw [hp i h, List.filter_cons_of_pos h]
      simp [Nat.add_comm]

theorem filter_range_of_false_above (p : Nat → Bool) (n : Nat)
    (hp : ∀ i, n ≤ i → p i = false) (k : Nat) (hk : n ≤ k) :
    (List.range k).filter p = (List.range n).filter p := by
  induction k with
  | zero =>
    have : n = 0 := by omega
    rw [this]
  | succ k ih =>
    by_cases h : n = k + 1
    · rw [h]
    · rw [List.range_succ, List.filter_append, ih (by omega)]
      have : p k = false := hp k (by omega)
      simp [this]

theorem testBit_false_of_lt (x : Int) (n i : Nat) (h : toGLuint x < 2 ^ n) (hi : n ≤ i) :
    (toGLuint x).testBit i = false :=
  Nat.testBit_lt_two_pow (lt_of_lt_of_le h (Nat.pow_le_pow_right (by norm_num) hi))

theorem popcountBelow_of_lt (n : Nat) (x : Int) (h : toGLuint x < 2 ^ n) :
    popcountBelow n x = popcount x := by
  have h32 : toGLuint x < 2 ^ 32 := by
    have := toGLuint_lt x
    norm_num
    exact this
  unfold popcountBelow popcount
  rw [← filter_range_of_false_above _ n (fun i hi => testBit_false_of_lt x n i h hi)
      (max n 32) (le_max_left _ _),
    ← filter_range_of_false_above _ 32 (fun i hi => testBit_false_of_lt x 32 i h32 hi)
      (max n 32) (le_max_right _ _)]

/-- C7: after `setCurVertAttEnables(enableMask, force)`, whatever the mask was before
and whatever `force` is, the global mask is `enableMask`, which is what
`getCurVertAttEnables()` then returns. -/
theorem setCurVertAttEnables_then_get (g : Globals) (enableMask : Int) (force : Bool) :
    getCurVertAttEnables (setCurVertAttEnables g enableMask force).1 = enableMask := rfl

theorem forSlots_eq_flatMap (body : Nat → Option (List Call)) (f : Nat → List Call)
    (l : List Nat) (h : ∀ i ∈ l, body i = some (f i)) :
    forSlots body l = some (l.flatMap f) := by
  induction l with
  | nil => rfl
  | cons i l ih =>
    rw [forSlots, h i (List.mem_cons_self _ _),
      ih fun x hx => h x (List.mem_cons_of_mem _ hx)]
    rfl

theorem shiftLeftOne_of_lt (i : Nat) (h : i < 32) : shiftLeftOne i = some (toGLint (2 ^ i)) := by
  unfold shiftLeftOne
  rw [if_pos h]

/-- C6 as stated fails: with eight attribute slots and nothing enabled, asking for
mask `0x100` (only bit 8, not a slot) issues no driver call, while
`popcount (0 xor 0x100)` is one. -/
theorem setCurVertAttEnables_count_counterexample :
    (setCurVertAttEnables globalsEight 256 false).2.map toggleCount = some 0 ∧
      popcount (bitXor (getCurVertAttEnables globalsEight) 256) = 1 := by
  decide

/-- C6, amended: while `__maxVertexAttribs` is at most 32, so that every shift
`1 << i` of the loops is defined, the call returns its calls, and without `force` the
number of enable/disable calls is the number of one bits of `currentMask xor mask` in
the positions below `__maxVertexAttribs`, which is `popcount (currentMask xor mask)`
when the two masks differ in no bit from `__maxVertexAttribs` on; with `force` it is
`__maxVertexAttribs`. -/
theorem setCurVertAttEnables_count (g : Globals) (enableMask : Int) (force : Bool)
    (hmax : g.__maxVertexAttribs ≤ 32) :
    ∃ calls, (setCurVertAttEnables g enableMask force).2 = some calls ∧
      (force = false →
        toggleCount calls =
          popcountBelow g.__maxVertexAttribs (bitXor g.__curvaEnableMask enableMask)) ∧
      (force = false →
        toGLuint (bitXor g.__curvaEnableMask enableMask) < 2 ^ g.__maxVertexAttribs →
        toggleCount calls = popcount (bitXor g.__curvaEnableMask enableMask)) ∧
      (force = true → toggleCount calls = g.__maxVertexAttribs) := by
  have hlt : ∀ i ∈ List.range g.__maxVertexAttribs, i < 32 := fun i hi =>
    lt_of_lt_of_le (List.mem_range.1 hi) hmax
  cases force with
  | false =>
    have hcalls : (setCurVertAttEnables g enableMask false).2 =
        some ((List.range g.__maxVertexAttribs).flatMap fun i =>
          if bitAnd (bitXor g.__curvaEnableMask enableMask) (toGLint (2 ^ i)) ≠ 0 then
            if bitAnd g.__curvaEnableMask (toGLint (2 ^ i)) ≠ 0 then
              [Call.glDisableVertexAttribArray i]
            else [Call.glEnableVertexAttribArray i]
          else []) := by
      simp only [setCurVertAttEnables, Bool.not_false, if_true]
      apply forSlots_eq_flatMap
      intro i hi
      rw [shiftLeftOne_of_lt i (hlt i hi)]
      rfl
    have hcount : toggleCount ((List.range g.__maxVertexAttribs).flatMap fun i =>
          if bitAnd (bitXor g.__curvaEnableMask enableMask) (toGLint (2 ^ i)) ≠ 0 then
            if bitAnd g.__curvaEnableMask (toGLint (2 ^ i)) ≠ 0 then
              [Call.glDisableVertexAttribArray i]
            else [Call.glEnableVertexAttribArray i]
          else []) =
        popcountBelow g.__maxVertexAttribs (bitXor g.__curvaEnableMask enableMask) := by
      unfold popcountBelow
      apply toggleCount_flatMap
      · intro i hi
        have h1 := (bitAnd_shiftLeftOne_ne_zero (bitXor g.__curvaEnableMask enableMask) i).2 hi
        rw [if_pos h1]
        split_ifs <;> rfl
      · intro i hi
        have h1 : ¬ bitAnd (bitXor g.__curvaEnableMask enableMask) (toGLint (2 ^ i)) ≠ 0 := by
          rw [bitAnd_shiftLeftOne_ne_zero, hi]
          simp
        rw [if_neg h1]
    refine ⟨_, hcalls, fun _ => hcount, fun _ hlt2 => ?_, (fun h => by cases h)⟩
    rw [hcount, popcountBelow_of_lt _ _ hlt2]
  | true =>
    have hcalls : (setCurVertAttEnables g enableMask true).2 =
        some ((List.range g.__maxVertexAttribs).flatMap fun i =>
          [if bitAnd enableMask (toGLint (2 ^ i)) ≠ 0 then Call.glEnableVertexAttribArray i
           else Call.glDisableVertexAttribArray i]) := by
      simp only [setCurVertAttEnables, Bool.not_true]
      rw [if_neg (by simp)]
      apply forSlots_eq_flatMap
      intro i hi
      rw [shiftLeftOne_of_lt i (hlt i hi)]
      rfl
    refine ⟨_, hcalls, (fun h => by cases h), (fun h => by cases h), fun _ => ?_⟩
    have := toggleCount_flatMap (fun _ => true)
      (fun i => [if bitAnd enableMask (toGLint (2 ^ i)) ≠ 0 then Call.glEnableVertexAttribArray i
           else Call.glDisableVertexAttribArray i])
      (fun i _ => by dsimp only; split_ifs <;> rfl) (fun i h => by cases h)
      (List.range g.__maxVertexAttribs)
    rw [this]
    simp

theorem setCurVertAttEnables_count_witness :
    ∃ calls, (setCurVertAttEnables globalsEight 5 false).2 = some calls ∧
      toggleCount calls = popcount (bitXor 0 5) := by
  obtain ⟨calls, h1, _, h2, _⟩ :=
    setCurVertAttEnables_count globalsEight 5 false (by decide)
  exact ⟨calls, h1, h2 rfl (by decide)⟩

/-! ## Attribute resolution -/

/-- C5: a `TEXCOORD0` element first asks the effect for `a_texCoord`; when that is
found its location is the result and nothing else is asked; only when it is not found
(`-1`) is `a_texCoord0` asked, and its answer is the result, so the element is
unresolved exactly when neither name is found. -/
theorem initSwitch_TEXCOORD0 (effect : C3DEffect) :
    (effect.getVertexAttribute "a_texCoord" ≠ -1 →
      initSwitch effect Vertex_Usage.TEXCOORD0 =
        (effect.getVertexAttribute "a_texCoord", ["a_texCoord"])) ∧
    (effect.getVertexAttribute "a_texCoord" = -1 →
      initSwitch effect Vertex_Usage.TEXCOORD0 =
        (effect.getVertexAttribute "a_texCoord0", ["a_texCoord", "a_texCoord0"])) ∧
    ((initSwitch effect Vertex_Usage.TEXCOORD0).1 = -1 ↔
      effect.getVertexAttribute "a_texCoord" = -1 ∧
        effect.getVertexAttribute "a_texCoord0" = -1) := by
  have h0 : VERTEX_ATTRIBUTE_TEXCOORD_PREFIX_NAME = "a_texCoord" := rfl
  have h1 : VERTEX_ATTRIBUTE_TEXCOORD_PREFIX_NAME ++ "0" = "a_texCoord0" := by decide
  refine ⟨?_, ?_, ?_⟩
  · intro h
    simp only [initSwitch, h0, if_neg h]
  · intro h
    simp only [initSwitch, h0, if_pos h]
    rw [← h0, h1]
  · simp only [initSwitch, h0]
    by_cases h : effect.getVertexAttribute "a_texCoord" = -1
    · rw [if_pos h, ← h0, h1]
      simp [h0, h]
    · rw [if_neg h]
      simp [h]

theorem initSwitch_TEXCOORD0_witness :
    initSwitch effectBothTexCoord Vertex_Usage.TEXCOORD0 = (3, ["a_texCoord"]) :=
  (initSwitch_TEXCOORD0 effectBothTexCoord).1 (by decide)


/-! ## `bind` and `unbind` -/

theorem driverEnabled_append (en : Nat → Bool) (xs ys : List Call) :
    driverEnabled en (xs ++ ys) = driverEnabled (driverEnabled en xs) ys := by
  simp [driverEnabled]

/-- A loop whose body at `i` sets the flag of slot `i` to `v` when `e i` holds, and
leaves all flags alone otherwise, sets exactly the flags of the visited slots
satisfying `e`. -/
theorem driverEnabled_flatMap (v : Bool) (e : Nat → Bool) (f : Nat → List Call)
    (hf : ∀ (en : Nat → Bool) (i j : Nat),
      driverEnabled en (f i) j = if j = i ∧ e i = true then v else en j)
    (l : List Nat) (en : Nat → Bool) (j : Nat) :
    driverEnabled en (l.flatMap f) j = if j ∈ l ∧ e j = true then v else en j := by
  induction l generalizing en with
  | nil => simp [driverEnabled]
  | cons i l ih =>
    rw [List.flatMap_cons, driverEnabled_append, ih, hf]
    by_cases h1 : j ∈ l ∧ e j = true
    · rw [if_pos h1, if_pos ⟨List.mem_cons_of_mem _ h1.1, h1.2⟩]
    · rw [if_neg h1]
      by_cases h2 : j = i ∧ e i = true
      · rw [if_pos h2, if_pos]
        exact ⟨by rw [h2.1]; exact List.mem_cons_self _ _, by rw [h2.1]; exact h2.2⟩
      · rw [if_neg h2, if_neg]
        rintro ⟨hm, he⟩
        rcases List.mem_cons.1 hm with h | h
        · exact h2 ⟨h, by rw [← h]; exact he⟩
        · exact h1 ⟨h, he⟩

theorem bindSoftware_enabled (maxVertexAttribs : Nat) (self : C3DVertexDeclaration)
    (hlen : maxVertexAttribs ≤ (self._attributes.getD []).length) (en : Nat → Bool) :
    ∃ calls, bindSoftware maxVertexAttribs self = some calls ∧
      ∀ j, driverEnabled en calls j =
        if j < maxVertexAttribs ∧ slotEnabled self j = true then true else en j := by
  refine ⟨_, by rw [bindSoftware, if_pos hlen], ?_⟩
  intro j
  have hcons : ∀ (a b : Nat) (cs : List Call),
      driverEnabled en (Call.glBindBuffer a b :: cs) = driverEnabled en cs := by
    intro a b cs
    rfl
  rw [hcons, driverEnabled_flatMap true (slotEnabled self)]
  · simp only [List.mem_range]
  · intro en i j
    unfold slotEnabled
    cases h : (self._attributes.getD [])[i]? with
    | none => simp [driverEnabled]
    | some attr =>
      cases he : attr.enabled <;> simp [driverEnabled, driverStep, he]

theorem unbindSoftware_enabled (maxVertexAttribs : Nat) (self : C3DVertexDeclaration)
    (hlen : maxVertexAttribs ≤ (self._attributes.getD []).length) (en : Nat → Bool) :
    ∃ calls, unbindSoftware maxVertexAttribs self = some calls ∧
      ∀ j, driverEnabled en calls j =
        if j < maxVertexAttribs ∧ slotEnabled self j = true then false else en j := by
  refine ⟨_, by rw [unbindSoftware, if_pos hlen], ?_⟩
  intro j
  have hpre : driverEnabled en (match self._mesh with
        | some _ => [Call.glBindBuffer GL_ARRAY_BUFFER 0]
        | none => []) = en := by
    cases self._mesh <;> rfl
  rw [driverEnabled_append, hpre, driverEnabled_flatMap false (slotEnabled self)]
  · simp only [List.mem_range]
  · intro en i j
    unfold slotEnabled
    cases h : (self._attributes.getD [])[i]? with
    | none => simp [driverEnabled]
    | some attr =>
      cases he : attr.enabled <;> simp [driverEnabled, driverStep, he]

/-- C1 as stated fails: slot 0 is enabled at the driver, the binding (software mode,
no hardware arrays on the platform) has slot 0 enabled; after `bind()` and `unbind()`
slot 0 is disabled at the driver. -/
theorem bind_unbind_counterexample :
    declSlotZero._handle = 0 ∧ declSlotZero._attributes.isSome = true ∧
    slotEnabled declSlotZero 0 = true ∧
    (fun i => decide (i = 0)) 0 = true ∧
    ((bind deviceNoVAO 2 declSlotZero).bind fun c1 =>
      (unbind deviceNoVAO 2 declSlotZero).map fun c2 =>
        driverEnabled (driverEnabled (fun i => decide (i = 0)) c1) c2 0) = some false := by
  decide

/-- C1, amended: for a software-mode binding (no hardware handle, slot array with a
slot for every index below `__maxVertexAttribs`), `bind()` and `unbind()` both run, and
after the pair the driver has enabled exactly the slots that were enabled before
`bind()` and are not enabled slots of the binding: the slots of the binding end up
disabled, all others are as before.  The enabled set is the one from before `bind()`
exactly when no enabled slot of the binding was enabled before. -/
theorem bind_unbind_enabled (dev : Device) (maxVertexAttribs : Nat)
    (self : C3DVertexDeclaration) (attrs : List C3DVertexAttribute) (before : Nat → Bool)
    (hhandle : self._handle = 0) (hattrs : self._attributes = some attrs)
    (hlen : maxVertexAttribs ≤ attrs.length) :
    ∃ c1 c2, bind dev maxVertexAttribs self = some c1 ∧
      unbind dev maxVertexAttribs self = some c2 ∧
      (∀ j, driverEnabled (driverEnabled before c1) c2 j =
        (before j && !(decide (j < maxVertexAttribs) && slotEnabled self j))) ∧
      ((∀ j, driverEnabled (driverEnabled before c1) c2 j = before j) ↔
        ∀ j, j < maxVertexAttribs → slotEnabled self j = true → before j = false) := by
  have hlen1 : maxVertexAttribs ≤ (self._attributes.getD []).length := by
    rw [hattrs]; exact hlen
  obtain ⟨c1, hc1, h1⟩ := bindSoftware_enabled maxVertexAttribs self hlen1 before
  obtain ⟨c2, hc2, h2⟩ :=
    unbindSoftware_enabled maxVertexAttribs self hlen1 (driverEnabled before c1)
  have hb : bind dev maxVertexAttribs self = some c1 := by
    unfold bind
    rw [hhandle]
    simp [hc1]
  have hu : unbind dev maxVertexAttribs self = some c2 := by
    unfold unbind
    rw [hhandle]
    simp [hc2]
  have hall : ∀ j, driverEnabled (driverEnabled before c1) c2 j =
      (before j && !(decide (j < maxVertexAttribs) && slotEnabled self j)) := by
    intro j
    rw [h2, h1]
    by_cases h : j < maxVertexAttribs ∧ slotEnabled self j = true
    · rw [if_pos h]
      simp [h.1, h.2]
    · rw [if_neg h, if_neg h]
      by_cases hj : j < maxVertexAttribs
      · have : slotEnabled self j = false := by
          cases hs : slotEnabled self j
          · rfl
          · exact absurd ⟨hj, hs⟩ h
        simp [this]
      · simp [hj]
  refine ⟨c1, c2, hb, hu, hall, ?_⟩
  constructor
  · intro h j hj hs
    have := h j
    rw [hall j] at this
    simp [hj, hs] at this
    exact this
  · intro h j
    rw [hall j]
    by_cases hj : j < maxVertexAttribs
    · cases hs : slotEnabled self j
      · simp
      · simp [h j hj hs]
    · simp [hj]

theorem bind_unbind_enabled_witness :
    ∃ c1 c2, bind deviceNoVAO 2 declSlotZero = some c1 ∧
      unbind deviceNoVAO 2 declSlotZero = some c2 ∧
      (∀ j, driverEnabled (driverEnabled (fun i => decide (i = 0)) c1) c2 j =
        (decide (j = 0) && !(decide (j < 2) && slotEnabled declSlotZero j))) ∧
      ((∀ j, driverEnabled (driverEnabled (fun i => decide (i = 0)) c1) c2 j =
          decide (j = 0)) ↔
        ∀ j, j < 2 → slotEnabled declSlotZero j = true → decide (j = 0) = false) :=
  bind_unbind_enabled deviceNoVAO 2 declSlotZero _ (fun i => decide (i = 0)) rfl rfl
    (by decide)

/-! ## The element loop of `init` -/

theorem initOneTime_globals (drv : DriverReply) (g : Globals) :
    (initOneTime drv g).2.1 =
      { g with __maxVertexAttribs :=
          if g.__maxVertexAttribs = 0 then toGLuint drv.maxVertexAttribs
          else g.__maxVertexAttribs } := by
  unfold initOneTime
  by_cases h1 : g.__maxVertexAttribs = 0
  · by_cases h2 : toGLuint drv.maxVertexAttribs ≤ 0 <;> simp [h1, h2]
  · simp [h1]

theorem initOneTime_ok (drv : DriverReply) (g : Globals) :
    (initOneTime drv g).1 = true ↔
      ¬ (g.__maxVertexAttribs = 0 ∧ toGLuint drv.maxVertexAttribs = 0) := by
  unfold initOneTime
  by_cases h1 : g.__maxVertexAttribs = 0
  · by_cases h2 : toGLuint drv.maxVertexAttribs = 0 <;> simp [h1, h2]
  · simp [h1]

/-- Whether `init` takes the hardware branch of its mode selection. -/
theorem initConfigure_hardware (dev : Device) (drv : DriverReply) (maxVertexAttribs : Nat)
    (self : C3DVertexDeclaration) (m : C3DMesh)
    (hvao : dev.isSupportVAO = true) (hgen : dev.glGenVertexArrays = true) :
    (initConfigure dev drv maxVertexAttribs self (some m)).1 = decide (drv.vertexArray ≠ 0) ∧
    (initConfigure dev drv maxVertexAttribs self (some m)).2.1 =
      { self with _handle := drv.vertexArray } := by
  unfold initConfigure
  by_cases h : drv.vertexArray = 0 <;> simp [hvao, hgen, h]

theorem initConfigure_software (dev : Device) (drv : DriverReply) (maxVertexAttribs : Nat)
    (self : C3DVertexDeclaration) (mesh : Option C3DMesh)
    (hsoft : ¬ (dev.isSupportVAO = true ∧ dev.glGenVertexArrays = true ∧ mesh.isSome = true)) :
    initConfigure dev drv maxVertexAttribs self mesh =
      (true, { self with _attributes := some (softwareAttributes maxVertexAttribs) }, []) := by
  unfold initConfigure
  cases hv : dev.isSupportVAO
  · simp
  · cases hg : dev.glGenVertexArrays
    · simp
    · cases mesh with
      | none => simp
      | some m => simp [hv, hg] at hsoft

/-- What a successful `init` went through: the two stages before the element loop let
it pass, and the loop, run on the configured object, produced the result. -/
theorem init_ok_elements (dev : Device) (drv : DriverReply) (g : Globals)
    (self : C3DVertexDeclaration) (mesh : Option C3DMesh) (vertexFormat : C3DVertexFormat)
    (vertexPointer : Nat) (effect : C3DEffect) (r : InitResult)
    (hinit : init dev drv g self mesh vertexFormat vertexPointer effect = some r)
    (hok : r.ok = true) :
    r.globals = (initOneTime drv { g with initCalls := g.initCalls + 1 }).2.1 ∧
    (initOneTime drv { g with initCalls := g.initCalls + 1 }).1 = true ∧
    (initConfigure dev drv r.globals.__maxVertexAttribs self mesh).1 = true ∧
    ∃ calls, initElements effect vertexPointer (toGLint vertexFormat.getVertexSize)
        vertexFormat.elements 0
        (initStore (initConfigure dev drv r.globals.__maxVertexAttribs self mesh).2.1
          mesh effect) = some (r.self, calls, r.registered) := by
  unfold init at hinit
  rcases h1 : initOneTime drv { g with initCalls := g.initCalls + 1 } with ⟨ok1, g1, calls1⟩
  rw [h1] at hinit
  cases ok1 with
  | false =>
    simp only [Option.some.injEq] at hinit
    rw [← hinit] at hok
    simp at hok
  | true =>
    simp only at hinit
    rcases h2 : initConfigure dev drv g1.__maxVertexAttribs self mesh with ⟨ok2, self1, calls2⟩
    rw [h2] at hinit
    cases ok2 with
    | false =>
      simp only [Option.some.injEq] at hinit
      rw [← hinit] at hok
      simp at hok
    | true =>
      simp only at hinit
      cases h3 : initElements effect vertexPointer (toGLint vertexFormat.getVertexSize)
          vertexFormat.elements 0 (initStore self1 mesh effect) with
      | none =>
        rw [h3] at hinit
        simp at hinit
      | some x =>
        obtain ⟨self4, calls4, registered⟩ := x
        rw [h3] at hinit
        simp only [Option.some.injEq] at hinit
        subst hinit
        simp only [h2]
        exact ⟨trivial, trivial, trivial, calls4, h3⟩


theorem setVertexAttribPointer_software (self : C3DVertexDeclaration)
    (attrs : List C3DVertexAttribute) (a : AttribPointerArgs)
    (r : C3DVertexDeclaration × List Call)
    (hhandle : self._handle = 0) (hattrs : self._attributes = some attrs)
    (h : setVertexAttribPointer self a = some r) :
    a.indx < attrs.length ∧
    r = ({ self with _attributes := some (attrs.set a.indx
      { enabled := true, size := a.size, type := a.type, normalized := a.normalize,
        stride := a.stride, pointer := a.pointer }) }, []) := by
  unfold setVertexAttribPointer at h
  rw [if_neg (by simp [hhandle]), hattrs] at h
  simp only at h
  by_cases hi : a.indx < attrs.length
  · rw [if_pos hi] at h
    exact ⟨hi, (Option.some.inj h).symm⟩
  · rw [if_neg hi] at h
    simp at h

/-- The slot array after the element loop in software mode.  Every slot either was
resolved to by no element and is as before the loop, or holds what the last element
resolving to it registered. -/
theorem initElements_software (effect : C3DEffect) (vertexPointer : Nat) (stride : Int)
    (elems : List C3DVertexElement) :
    ∀ (offset : Nat) (self : C3DVertexDeclaration) (attrs0 : List C3DVertexAttribute)
      (r : C3DVertexDeclaration × List Call × List (Option AttribPointerArgs)),
      self._handle = 0 → self._attributes = some attrs0 →
      initElements effect vertexPointer stride elems offset self = some r →
      r.1._handle = 0 ∧
      ∃ attrs, r.1._attributes = some attrs ∧ attrs.length = attrs0.length ∧
        ∀ i, i < attrs0.length →
          ((∀ e ∈ elems, ¬ resolvesTo effect e i) ∧ attrs[i]? = attrs0[i]?) ∨
          (∃ pre e post p, elems = pre ++ e :: post ∧ resolvesTo effect e i ∧
            (∀ x ∈ post, ¬ resolvesTo effect x i) ∧
            attrs[i]? = some
              { enabled := true, size := toGLint e.size, type := GL_FLOAT,
                normalized := false, stride := stride, pointer := p }) := by
  induction elems with
  | nil =>
    intro offset self attrs0 r hh ha h
    simp only [initElements, Option.some.injEq] at h
    subst h
    exact ⟨hh, attrs0, ha, rfl, fun i _ => Or.inl ⟨by simp, rfl⟩⟩
  | cons elem rest ih =>
    intro offset self attrs0 r hh ha h
    simp only [initElements] at h
    by_cases hattr : (initSwitch effect elem.usage).1 = -1
    · rw [if_pos hattr] at h
      cases hrec : initElements effect vertexPointer stride rest
          ((offset + elem.size * 4) % 4294967296) self with
      | none => rw [hrec] at h; simp at h
      | some r1 =>
        rw [hrec] at h
        simp only [Option.map_some', Option.some.injEq] at h
        subst h
        obtain ⟨hh1, attrs, hat, hl, hslots⟩ := ih _ _ _ _ hh ha hrec
        refine ⟨hh1, attrs, hat, hl, ?_⟩
        intro i hi
        rcases hslots i hi with ⟨hno, heq⟩ | ⟨pre, e, post, p, hsplit, hres, hpost, heq⟩
        · left
          refine ⟨?_, heq⟩
          intro x hx
          rcases List.mem_cons.1 hx with hx | hx
          · rw [hx]
            exact fun hr => hr.1 hattr
          · exact hno x hx
        · right
          exact ⟨elem :: pre, e, post, p, by rw [hsplit]; rfl, hres, hpost, heq⟩
    · rw [if_neg hattr] at h
      cases hset : setVertexAttribPointer self
          { indx := toGLuint (initSwitch effect elem.usage).1, size := toGLint elem.size,
            type := GL_FLOAT, normalize := false, stride := stride,
            pointer := if vertexPointer ≠ 0 then vertexPointer + offset else offset } with
      | none => rw [hset] at h; simp at h
      | some q =>
        rw [hset] at h
        obtain ⟨hidx, hq⟩ := setVertexAttribPointer_software self attrs0 _ q hh ha hset
        subst hq
        simp only at h hidx
        cases hrec : initElements effect vertexPointer stride rest
            ((offset + elem.size * 4) % 4294967296)
            { self with _attributes := some (attrs0.set (toGLuint (initSwitch effect elem.usage).1)
              { enabled := true, size := toGLint elem.size, type := GL_FLOAT,
                normalized := false, stride := stride,
                pointer := if vertexPointer ≠ 0 then vertexPointer + offset else offset }) } with
        | none => rw [hrec] at h; simp at h
        | some r1 =>
          rw [hrec] at h
          simp only [Option.map_some', Option.some.injEq] at h
          subst h
          obtain ⟨hh1, attrs, hat, hl, hslots⟩ := ih _ _ _ _ (by exact hh) (by rfl) hrec
          rw [List.length_set] at hl hslots
          refine ⟨hh1, attrs, hat, hl, ?_⟩
          intro i hi
          rcases hslots i hi with ⟨hno, heq⟩ | ⟨pre, e, post, p, hsplit, hres, hpost, heq⟩
          · by_cases hidx2 : toGLuint (initSwitch effect elem.usage).1 = i
            · right
              refine ⟨[], elem, rest,
                (if vertexPointer ≠ 0 then vertexPointer + offset else offset), rfl,
                ⟨hattr, hidx2⟩, hno, ?_⟩
              rw [heq, hidx2, List.getElem?_set_self hi]
            · left
              refine ⟨?_, ?_⟩
              · intro x hx
                rcases List.mem_cons.1 hx with hx | hx
                · rw [hx]
                  exact fun hr => hidx2 hr.2
                · exact hno x hx
              · rw [heq, List.getElem?_set_ne hidx2]
          · right
            exact ⟨elem :: pre, e, post, p, by rw [hsplit]; rfl, hres, hpost, heq⟩


theorem toGLint_of_lt (n : Nat) (h : n < 2147483648) : toGLint (n : Int) = n := by
  unfold toGLint toGLuint
  split_ifs <;> omega

theorem size_le_getVertexSize (f : C3DVertexFormat) (e : C3DVertexElement)
    (he : e ∈ f.elements) : e.size * 4 ≤ f.getVertexSize := by
  unfold C3DVertexFormat.getVertexSize
  exact List.single_le_sum (by simp) _ (List.mem_map.2 ⟨e, he, rfl⟩)

theorem initStore_handle_attributes (self : C3DVertexDeclaration) (mesh : Option C3DMesh)
    (effect : C3DEffect) :
    (initStore self mesh effect)._handle = self._handle ∧
    (initStore self mesh effect)._attributes = self._attributes := by
  cases mesh <;> exact ⟨rfl, rfl⟩

/-- C4: after a successful software-mode build of an object without hardware handle,
for a format whose vertex size fits `GLsizei`: the slot array has
`__maxVertexAttribs` slots; a slot is enabled exactly when some element of the format
resolves to its index; an enabled slot has the format's vertex size as stride, type
float, is not normalized, and has the component count of the last element resolving
to it; every other slot is the default slot. -/
theorem init_software_slots (dev : Device) (drv : DriverReply) (g : Globals)
    (self : C3DVertexDeclaration) (mesh : Option C3DMesh) (vertexFormat : C3DVertexFormat)
    (vertexPointer : Nat) (effect : C3DEffect) (r : InitResult)
    (hhandle : self._handle = 0)
    (hsoft : ¬ (dev.isSupportVAO = true ∧ dev.glGenVertexArrays = true ∧ mesh.isSome = true))
    (hinit : init dev drv g self mesh vertexFormat vertexPointer effect = some r)
    (hok : r.ok = true) (hfit : vertexFormat.getVertexSize < 2147483648) :
    r.self._handle = 0 ∧
    ∃ attrs, r.self._attributes = some attrs ∧
      attrs.length = r.globals.__maxVertexAttribs ∧
      ∀ (i : Nat) (a : C3DVertexAttribute), attrs[i]? = some a →
        (a.enabled = true ↔ ∃ e ∈ vertexFormat.elements, resolvesTo effect e i) ∧
        (a.enabled = true →
          a.stride = vertexFormat.getVertexSize ∧ a.type = GL_FLOAT ∧ a.normalized = false ∧
          ∃ pre e post, vertexFormat.elements = pre ++ e :: post ∧ resolvesTo effect e i ∧
            (∀ x ∈ post, ¬ resolvesTo effect x i) ∧ a.size = e.size) ∧
        (a.enabled = false → a = defaultAttribute) := by
  obtain ⟨_, _, _, calls, hloop⟩ :=
    init_ok_elements dev drv g self mesh vertexFormat vertexPointer effect r hinit hok
  rw [initConfigure_software dev drv _ self mesh hsoft] at hloop
  obtain ⟨hs1, hs2⟩ := initStore_handle_attributes
    { self with _attributes := some (softwareAttributes r.globals.__maxVertexAttribs) }
    mesh effect
  obtain ⟨hh, attrs, hat, hl, hslots⟩ :=
    initElements_software effect vertexPointer _ _ 0 _
      (softwareAttributes r.globals.__maxVertexAttribs) _ (by rw [hs1]; exact hhandle)
      (by rw [hs2]) hloop
  have hlen0 : (softwareAttributes r.globals.__maxVertexAttribs).length =
      r.globals.__maxVertexAttribs := by
    simp [softwareAttributes]
  rw [hlen0] at hl hslots
  refine ⟨hh, attrs, hat, hl, ?_⟩
  intro i a hia
  have hi : i < r.globals.__maxVertexAttribs := by
    rw [← hl]
    exact (List.getElem?_eq_some_iff.1 hia).1
  have hdef : (softwareAttributes r.globals.__maxVertexAttribs)[i]? = some defaultAttribute := by
    simp [softwareAttributes, hi]
  rcases hslots i hi with ⟨hno, heq⟩ | ⟨pre, e, post, p, hsplit, hres, hpost, heq⟩
  · rw [hia, hdef] at heq
    have ha : a = defaultAttribute := Option.some.inj heq
    subst ha
    refine ⟨⟨fun h => by simp [defaultAttribute] at h, fun ⟨e, he, hr⟩ => absurd hr (hno e he)⟩,
      fun h => by simp [defaultAttribute] at h, fun _ => rfl⟩
  · rw [hia] at heq
    have ha := Option.some.inj heq
    subst ha
    have hmem : e ∈ vertexFormat.elements := by
      rw [hsplit]
      simp
    have hsz := size_le_getVertexSize vertexFormat e hmem
    refine ⟨⟨fun _ => ⟨e, hmem, hres⟩, fun _ => rfl⟩, fun _ => ?_, fun h => by simp at h⟩
    have h1 : toGLint (vertexFormat.getVertexSize : Int) = vertexFormat.getVertexSize :=
      toGLint_of_lt _ hfit
    have h2 : toGLint (e.size : Int) = e.size := toGLint_of_lt _ (by omega)
    refine ⟨?_, ?_, ?_, pre, e, post, hsplit, hres, hpost, ?_⟩
    · exact h1
    · rfl
    · rfl
    · exact h2

theorem init_software_slots_witness :
    ∃ r attrs, init deviceNoVAO driverSixteen globalsFresh (C3DVertexDeclaration.new 1) none
        formatPNT 0 effectPT = some r ∧
      r.self._attributes = some attrs ∧ attrs.length = 16 ∧
      (attrs.filter fun a => a.enabled).map (fun a => a.stride) = [32, 32] ∧
      (¬ ∃ i, resolvesTo effectPT ⟨Vertex_Usage.NORMAL, 3⟩ i) ∧
      ∀ (i : Nat) (a : C3DVertexAttribute), attrs[i]? = some a →
        (a.enabled = true ↔ ∃ e ∈ formatPNT.elements, resolvesTo effectPT e i) := by
  have hsome : (init deviceNoVAO driverSixteen globalsFresh (C3DVertexDeclaration.new 1) none
      formatPNT 0 effectPT).isSome = true := by decide
  obtain ⟨r, hr⟩ := Option.isSome_iff_exists.1 hsome
  have hval : (init deviceNoVAO driverSixteen globalsFresh (C3DVertexDeclaration.new 1) none
      formatPNT 0 effectPT).map (fun x => (x.ok, x.globals.__maxVertexAttribs,
        ((x.self._attributes.getD []).filter fun a => a.enabled).map (fun a => a.stride))) =
      some (true, 16, [32, 32]) := rfl
  rw [hr] at hval
  simp only [Option.map_some', Option.some.injEq, Prod.mk.injEq] at hval
  obtain ⟨hok, hmax, hstr⟩ := hval
  obtain ⟨_, attrs, hat, hl, hslots⟩ := init_software_slots deviceNoVAO driverSixteen
    globalsFresh (C3DVertexDeclaration.new 1) none formatPNT 0 effectPT r rfl (by decide) hr hok
    (by decide)
  rw [hat] at hstr
  refine ⟨r, attrs, hr, hat, by rw [hl, hmax], hstr, ?_, fun i a h => (hslots i a h).1⟩
  rintro ⟨i, h1, _⟩
  exact h1 (by decide)


/-! ## What `init` leaves alone -/

theorem setVertexAttribPointer_frame (self : C3DVertexDeclaration) (a : AttribPointerArgs)
    (r : C3DVertexDeclaration × List Call) (h : setVertexAttribPointer self a = some r) :
    r.1.addr = self.addr ∧ r.1.refCount = self.refCount ∧ r.1._handle = self._handle ∧
      r.1._mesh = self._mesh ∧ r.1._effect = self._effect := by
  unfold setVertexAttribPointer at h
  split_ifs at h with h1
  · simp only [Option.some.injEq] at h
    subst h
    exact ⟨rfl, rfl, rfl, rfl, rfl⟩
  · cases ha : self._attributes with
    | none => rw [ha] at h; simp at h
    | some attrs =>
      rw [ha] at h
      simp only at h
      split_ifs at h with h2
      simp only [Option.some.injEq] at h
      subst h
      exact ⟨rfl, rfl, rfl, rfl, rfl⟩

theorem initElements_frame (effect : C3DEffect) (vertexPointer : Nat) (stride : Int)
    (elems : List C3DVertexElement) :
    ∀ (offset : Nat) (self : C3DVertexDeclaration)
      (r : C3DVertexDeclaration × List Call × List (Option AttribPointerArgs)),
      initElements effect vertexPointer stride elems offset self = some r →
      r.1.addr = self.addr ∧ r.1.refCount = self.refCount ∧ r.1._handle = self._handle ∧
        r.1._mesh = self._mesh ∧ r.1._effect = self._effect := by
  induction elems with
  | nil =>
    intro offset self r h
    simp only [initElements, Option.some.injEq] at h
    subst h
    exact ⟨rfl, rfl, rfl, rfl, rfl⟩
  | cons elem rest ih =>
    intro offset self r h
    simp only [initElements] at h
    by_cases hattr : (initSwitch effect elem.usage).1 = -1
    · rw [if_pos hattr] at h
      cases hrec : initElements effect vertexPointer stride rest
          ((offset + elem.size * 4) % 4294967296) self with
      | none => rw [hrec] at h; simp at h
      | some r1 =>
        rw [hrec] at h
        simp only [Option.map_some', Option.some.injEq] at h
        subst h
        exact ih _ _ r1 hrec
    · rw [if_neg hattr] at h
      cases hset : setVertexAttribPointer self
          { indx := toGLuint (initSwitch effect elem.usage).1, size := toGLint elem.size,
            type := GL_FLOAT, normalize := false, stride := stride,
            pointer := if vertexPointer ≠ 0 then vertexPointer + offset else offset } with
      | none => rw [hset] at h; simp at h
      | some q =>
        obtain ⟨self1, calls1⟩ := q
        rw [hset] at h
        simp only at h
        cases hrec : initElements effect vertexPointer stride rest
            ((offset + elem.size * 4) % 4294967296) self1 with
        | none => rw [hrec] at h; simp at h
        | some r1 =>
          rw [hrec] at h
          simp only [Option.map_some', Option.some.injEq] at h
          subst h
          obtain ⟨f1, f2, f3, f4, f5⟩ := ih _ _ r1 hrec
          obtain ⟨e1, e2, e3, e4, e5⟩ := setVertexAttribPointer_frame self _ _ hset
          simp only at e1 e2 e3 e4 e5 ⊢
          exact ⟨f1.trans e1, f2.trans e2, f3.trans e3, f4.trans e4, f5.trans e5⟩

theorem initConfigure_frame (dev : Device) (drv : DriverReply) (maxVertexAttribs : Nat)
    (self : C3DVertexDeclaration) (mesh : Option C3DMesh) :
    (initConfigure dev drv maxVertexAttribs self mesh).2.1.addr = self.addr ∧
    (initConfigure dev drv maxVertexAttribs self mesh).2.1.refCount = self.refCount ∧
    (initConfigure dev drv maxVertexAttribs self mesh).2.1._mesh = self._mesh ∧
    (initConfigure dev drv maxVertexAttribs self mesh).2.1._effect = self._effect := by
  unfold initConfigure
  cases dev.isSupportVAO <;> cases dev.glGenVertexArrays <;> cases mesh <;>
    by_cases h : drv.vertexArray = 0 <;> simp [h]

theorem initStore_frame (self : C3DVertexDeclaration) (m : C3DMesh) (effect : C3DEffect) :
    (initStore self (some m) effect).addr = self.addr ∧
    (initStore self (some m) effect).refCount = self.refCount ∧
    (initStore self (some m) effect)._mesh = some m ∧
    (initStore self (some m) effect)._effect = some effect :=
  ⟨rfl, rfl, rfl, rfl⟩

/-- The statics and the identity of the object after any `init` that returns: the cache
and the enable mask are untouched, the object keeps its address and reference count. -/
theorem init_frame (dev : Device) (drv : DriverReply) (g : Globals)
    (self : C3DVertexDeclaration) (mesh : Option C3DMesh) (vertexFormat : C3DVertexFormat)
    (vertexPointer : Nat) (effect : C3DEffect) (r : InitResult)
    (hinit : init dev drv g self mesh vertexFormat vertexPointer effect = some r) :
    r.globals.__vertexAttributeBindingCache = g.__vertexAttributeBindingCache ∧
    r.globals.__curvaEnableMask = g.__curvaEnableMask ∧
    r.globals.initCalls = g.initCalls + 1 ∧
    r.self.addr = self.addr ∧ r.self.refCount = self.refCount ∧
    (r.ok = false → r.self._mesh = self._mesh ∧ r.self._effect = self._effect) := by
  have hg := initOneTime_globals drv { g with initCalls := g.initCalls + 1 }
  unfold init at hinit
  rcases h1 : initOneTime drv { g with initCalls := g.initCalls + 1 } with ⟨ok1, g1, calls1⟩
  rw [h1] at hinit hg
  simp only at hg
  cases ok1 with
  | false =>
    simp only [Option.some.injEq] at hinit
    subst hinit
    simp only [hg]
    exact ⟨trivial, trivial, trivial, trivial, trivial, fun _ => ⟨trivial, trivial⟩⟩
  | true =>
    simp only at hinit
    have hc := initConfigure_frame dev drv g1.__maxVertexAttribs self mesh
    rcases h2 : initConfigure dev drv g1.__maxVertexAttribs self mesh with ⟨ok2, self1, calls2⟩
    rw [h2] at hinit hc
    simp only at hc
    cases ok2 with
    | false =>
      simp only [Option.some.injEq] at hinit
      subst hinit
      simp only [hg]
      exact ⟨trivial, trivial, trivial, hc.1, hc.2.1, fun _ => ⟨hc.2.2.1, hc.2.2.2⟩⟩
    | true =>
      simp only at hinit
      cases h3 : initElements effect vertexPointer (toGLint vertexFormat.getVertexSize)
          vertexFormat.elements 0 (initStore self1 mesh effect) with
      | none =>
        rw [h3] at hinit
        simp at hinit
      | some x =>
        obtain ⟨self4, calls4, registered⟩ := x
        rw [h3] at hinit
        simp only [Option.some.injEq] at hinit
        subst hinit
        obtain ⟨f1, f2, _, _, _⟩ := initElements_frame _ _ _ _ _ _ _ h3
        simp only at f1 f2
        have s1 : (initStore self1 mesh effect).addr = self1.addr := by cases mesh <;> rfl
        have s2 : (initStore self1 mesh effect).refCount = self1.refCount := by
          cases mesh <;> rfl
        simp only [hg]
        exact ⟨trivial, trivial, trivial, (f1.trans s1).trans hc.1, (f2.trans s2).trans hc.2.1,
          fun h => by simp at h⟩

theorem sameMeshEffect_retain (b : C3DVertexDeclaration) (mesh : C3DMesh) (effect : C3DEffect) :
    sameMeshEffect (retain b) mesh effect = sameMeshEffect b mesh effect := rfl

/-- The search loop of `create`: either no entry has the mesh and effect asked for and
nothing is found, or the first such entry is retained in place and returned. -/
theorem createScan_cases (mesh : C3DMesh) (effect : C3DEffect)
    (l : List C3DVertexDeclaration) :
    (createScan mesh effect l = none ∧ ∀ d ∈ l, sameMeshEffect d mesh effect = false) ∨
    (∃ pre b post, l = pre ++ b :: post ∧
      (∀ d ∈ pre, sameMeshEffect d mesh effect = false) ∧
      sameMeshEffect b mesh effect = true ∧
      createScan mesh effect l = some (retain b, pre ++ retain b :: post)) := by
  induction l with
  | nil => exact Or.inl ⟨rfl, by simp⟩
  | cons d rest ih =>
    cases hd : sameMeshEffect d mesh effect with
    | true =>
      right
      refine ⟨[], d, rest, rfl, by simp, hd, ?_⟩
      rw [createScan, if_pos hd]
      rfl
    | false =>
      rcases ih with ⟨hnone, hall⟩ | ⟨pre, b, post, hsplit, hpre, hb, hscan⟩
      · left
        refine ⟨?_, ?_⟩
        · rw [createScan, if_neg (by simp [hd]), hnone]
          rfl
        · intro x hx
          rcases List.mem_cons.1 hx with hx | hx
          · rw [hx]; exact hd
          · exact hall x hx
      · right
        refine ⟨d :: pre, b, post, by rw [hsplit]; rfl, ?_, hb, ?_⟩
        · intro x hx
          rcases List.mem_cons.1 hx with hx | hx
          · rw [hx]; exact hd
          · exact hpre x hx
        · rw [createScan, if_neg (by simp [hd]), hscan]
          rfl

theorem createScan_none (mesh : C3DMesh) (effect : C3DEffect) (l : List C3DVertexDeclaration)
    (h : ∀ d ∈ l, sameMeshEffect d mesh effect = false) : createScan mesh effect l = none := by
  rcases createScan_cases mesh effect l with ⟨hnone, _⟩ | ⟨pre, b, post, hsplit, _, hb, _⟩
  · exact hnone
  · have := h b (by rw [hsplit]; simp)
    rw [this] at hb
    cases hb

/-- The two ways the build of `init` fails: the attribute count is not cached yet and
the driver's answer is zero as a `GLuint`, or the hardware branch is taken and the
driver hands out vertex array `0`. -/
theorem init_fails (dev : Device) (drv : DriverReply) (g : Globals)
    (self : C3DVertexDeclaration) (m : C3DMesh) (vertexFormat : C3DVertexFormat)
    (vertexPointer : Nat) (effect : C3DEffect)
    (h : (g.__maxVertexAttribs = 0 ∧ toGLuint drv.maxVertexAttribs = 0) ∨
      (dev.isSupportVAO = true ∧ dev.glGenVertexArrays = true ∧ drv.vertexArray = 0)) :
    ∃ r, init dev drv g self (some m) vertexFormat vertexPointer effect = some r ∧
      r.ok = false ∧ r.self._attributes = self._attributes ∧ r.registered = [] := by
  unfold init
  have hok := initOneTime_ok drv { g with initCalls := g.initCalls + 1 }
  rcases h1 : initOneTime drv { g with initCalls := g.initCalls + 1 } with ⟨ok1, g1, calls1⟩
  rw [h1] at hok
  cases ok1 with
  | false => exact ⟨_, rfl, rfl, rfl, rfl⟩
  | true =>
    simp only [true_iff] at hok
    rcases h with h | ⟨hv, hg, hz⟩
    · exact absurd h hok
    · have hc := initConfigure_hardware dev drv g1.__maxVertexAttribs self m hv hg
      rcases h2 : initConfigure dev drv g1.__maxVertexAttribs self (some m) with
        ⟨ok2, self1, calls2⟩
      rw [h2] at hc
      simp only [hz, ne_eq, not_true_eq_false, decide_False] at hc
      obtain ⟨hc1, hc2⟩ := hc
      subst hc1 hc2
      simp only [h2]
      exact ⟨_, rfl, rfl, rfl, rfl⟩

/-- On a miss `create` neither half registers nor loses anything.  If `init` returns
false (as it does when the attribute count is not cached and the driver reports zero,
or when the hardware array creation yields handle zero) `create` returns `NULL` and
the cache is exactly the one before the call; if `init` returns true the cache is the
old one with exactly the returned binding appended.  `addr`, the address `new` hands
out, is that of no cached object. -/
theorem create_miss (dev : Device) (drv : DriverReply) (g : Globals) (addr : Nat)
    (mesh : C3DMesh) (effect : C3DEffect)
    (hmiss : ∀ d ∈ g.__vertexAttributeBindingCache, sameMeshEffect d mesh effect = false)
    (hfresh : ∀ d ∈ g.__vertexAttributeBindingCache, d.addr ≠ addr) :
    (((g.__maxVertexAttribs = 0 ∧ toGLuint drv.maxVertexAttribs = 0) ∨
        (dev.isSupportVAO = true ∧ dev.glGenVertexArrays = true ∧ drv.vertexArray = 0)) →
      ∃ g1 calls, create dev drv g addr mesh effect = some (none, g1, calls) ∧
        g1.__vertexAttributeBindingCache = g.__vertexAttributeBindingCache) ∧
    (∀ r, init dev drv g (C3DVertexDeclaration.new addr) (some mesh) mesh.vertexFormat 0
          effect = some r → r.ok = false →
      ∃ g1 calls, create dev drv g addr mesh effect = some (none, g1, calls) ∧
        g1.__vertexAttributeBindingCache = g.__vertexAttributeBindingCache) ∧
    (∀ r, init dev drv g (C3DVertexDeclaration.new addr) (some mesh) mesh.vertexFormat 0
          effect = some r → r.ok = true →
      ∃ g1 calls, create dev drv g addr mesh effect = some (some r.self, g1, calls) ∧
        g1.__vertexAttributeBindingCache = g.__vertexAttributeBindingCache ++ [r.self]) := by
  have hscan := createScan_none mesh effect _ hmiss
  have hfail : ∀ r, init dev drv g (C3DVertexDeclaration.new addr) (some mesh)
      mesh.vertexFormat 0 effect = some r → r.ok = false →
      ∃ g1 calls, create dev drv g addr mesh effect = some (none, g1, calls) ∧
        g1.__vertexAttributeBindingCache = g.__vertexAttributeBindingCache := by
    intro r hinit hok
    obtain ⟨hc, _, _, ha, hr, _⟩ := init_frame _ _ _ _ _ _ _ _ _ hinit
    refine ⟨_, _, by unfold create; rw [hscan]; simp only [hinit, hok]; rfl, ?_⟩
    have hrc : r.self.refCount ≤ 1 := by rw [hr]; exact le_refl _
    simp only [release, if_pos hrc, destructor, hc]
    apply List.eraseP_of_forall_not
    intro d hd
    rw [ha]
    simpa [C3DVertexDeclaration.new] using hfresh d hd
  refine ⟨?_, hfail, ?_⟩
  · intro h
    obtain ⟨r, hinit, hok, _⟩ := init_fails dev drv g (C3DVertexDeclaration.new addr) mesh
      mesh.vertexFormat 0 effect h
    exact hfail r hinit hok
  · intro r hinit hok
    obtain ⟨hc, _⟩ := init_frame _ _ _ _ _ _ _ _ _ hinit
    exact ⟨_, _, by unfold create; rw [hscan]; simp only [hinit, hok]; rfl, by simp [hc]⟩

/-! ## The defects -/

/-- C8, the code at the failing input: the attribute count is not cached, the driver
answers `-1`, the platform has hardware vertex arrays.  The answer becomes
`4294967295` in the `GLuint` static, the test `<= 0` lets it pass, and `create` returns
a binding with hardware handle 7, which is registered in the cache. -/
theorem create_negative_attribute_count :
    (create deviceVAO driverNegative globalsFresh 1 meshPNT effectPT).map
        (fun x => (x.1.map (fun b => (b.addr, b._handle)), x.2.1.__maxVertexAttribs,
          x.2.1.__vertexAttributeBindingCache.map (fun d => d.addr))) =
      some (some (1, 7), 4294967295, [1]) := by
  decide

/-- C9, the code at the failing input: the cache is empty, so it has no entry for the
mesh and effect; the attribute count is not cached and the driver answers
`-2147483648`, a non-positive count.  The build does not fail: `init` is called once,
`create` returns a binding and the cache, empty before, holds it. -/
theorem create_miss_negative_count_registers :
    globalsFresh.__vertexAttributeBindingCache.length = 0 ∧
    (create deviceVAO driverMostNegative globalsFresh 1 meshPNT effectPT).map
        (fun x => (x.1.isSome, x.2.1.initCalls,
          x.2.1.__vertexAttributeBindingCache.map (fun d => (d.addr, d._handle)))) =
      some (true, 1, [(1, 3)]) := by
  decide

/-- C10, the code at the failing input: a binding is built in hardware mode (handle 7,
no slot array); during `reload()` the driver's `glGenVertexArrays` stores `0`.  `init`
returns false, `reload` goes on regardless, and the binding is left with handle `0` and
no slot array: neither of the two holds, and `bind()` on it reads a null slot
array. -/
theorem reload_failed_leaves_neither :
    ((create deviceVAO driverSixteen globalsFresh 1 meshPNT effectPT).bind fun x =>
      x.1.bind fun b =>
        (reload deviceVAO driverNoArray x.2.1 b).map fun y =>
          ((b._handle, b._attributes.isSome), (y.1._handle, y.1._attributes.isSome),
            (bind deviceVAO y.2.1.__maxVertexAttribs y.1).isSome)) =
      some ((7, false), (0, false), false) := by
  decide

/-! ## The cache over the life of the program -/

end cocos3d
